import Mathlib

/-!
# SSLClient (src/src/SSLClient.h) — verification of the specified adapter core

A shallow embedding of the `SSLClient<C, SessionCache>` adapter from
`src/src/SSLClient.h` together with the parts of the orchestration core
(`SSLClientImpl`) that the header delegates to.  The header is the only
source file of the repository present under `src/`; the `*_impl` member
functions it calls (`get_session_impl`, `remove_session_impl`, `write_impl`,
`stop_impl`, `available_impl`, `read_impl`, `peek_impl`, `connected_impl`,
`connect_impl`, `flush_impl`) are declared and documented there but defined
elsewhere, so those operations are modelled from the specification's words
(each such definition carries a doc comment starting `Modelled from the
spec:`).  Everything taken directly from the header (the `static_assert`
guards, the capability-probed accessors, the `bool` comparison operators)
is embedded from the source text itself, with C++ compile-time semantics
made explicit where the header relies on them.
-/

namespace SSLClientModel

/-! ## Session cache (spec §3, §4.1; header lines 286–317, 366–373) -/

/-- A `(hostname-or-empty, IP address)` identity used to key the session
cache.  The header passes `const char* host` (possibly `NULL`, modelled as
the empty string) and an `IPAddress` (modelled as a `Nat`). -/
structure Identity where
  host : String
  addr : Nat
deriving DecidableEq

/-- One `SSLSession` record: host identity, an opaque resumption blob
(modelled as a `Nat` standing for the opaque bytes) and a validity flag.
Created empty at cache construction (spec §3). -/
structure SSLSession where
  host : String
  addr : Nat
  blob : Nat
  valid : Bool
deriving DecidableEq

/-- A freshly-emptied (invalid) session slot. -/
def emptySession : SSLSession := ⟨"", 0, 0, false⟩

/-- Modelled from the spec: the identity-equality test used by the cache
lookup.  `SSLClientImpl::m_get_session_index` is not under `src/` (only its
caller `getSession`, header line 300, is), so this follows spec §4.1:
hostname compared as exact byte match when available, falling back to
IP-address equality alone when the host is unavailable (null/empty);
a hit requires exact string-and-address equality otherwise. -/
def idMatch (q : Identity) (shost : String) (saddr : Nat) : Bool :=
  if q.host = "" then q.addr == saddr
  else q.host == shost && q.addr == saddr

/-- Linear scan for the first valid slot matching the queried identity,
returning its index (spec §3: "lookup is linear scan"). -/
def findMatch (q : Identity) : List SSLSession → Option Nat
  | [] => none
  | s :: rest =>
    if s.valid && idMatch q s.host s.addr then some 0
    else (findMatch q rest).map (· + 1)

/-- The fixed-capacity session cache: an ordered array of slots plus the
rotating modulo-capacity cursor used for eviction (spec §3, §4.1). -/
structure SessionCache where
  slots : List SSLSession
  cursor : Nat
deriving DecidableEq

/-- A cache of capacity `n`, all slots empty, cursor at the first slot
(header line 74: `m_sessions{SSLSession()}`). -/
def emptyCache (n : Nat) : SessionCache := ⟨List.replicate n emptySession, 0⟩

/-- Modelled from the spec: `SSLClientImpl::get_session_impl`, the target of
`SSLClient::getSession` (header line 300), is not under `src/`.  Spec §4.1:
return the matching valid slot if one exists; otherwise select the next
rotating slot (advancing a modulo-capacity cursor), mark it invalid/empty
ready for reuse, and return it.  The result is the updated cache paired
with the index of the returned slot. -/
def getSession (c : SessionCache) (q : Identity) : SessionCache × Nat :=
  match findMatch q c.slots with
  | some i => (c, i)
  | none =>
    (⟨c.slots.set c.cursor emptySession, (c.cursor + 1) % c.slots.length⟩, c.cursor)

/-- The session record the caller's reference denotes after `getSession`. -/
def getSessionSlot (c : SessionCache) (q : Identity) : SSLSession :=
  (getSession c q).1.slots.getD (getSession c q).2 emptySession

/-- Modelled from the spec: after a successful handshake the orchestration
layer populates the slot `getSession` selected with the identity and the
new resumption blob (spec §3 "populated by ConnectionStateMachine after a
successful handshake"; §4.4 "the session slot is updated with the new
resumption blob"). -/
def storeSession (c : SessionCache) (q : Identity) (blob : Nat) : SessionCache :=
  let r := getSession c q
  ⟨r.1.slots.set r.2 ⟨q.host, q.addr, blob, true⟩, r.1.cursor⟩

/-- Insert a list of (identity, blob) pairs in order, each via the
lookup-then-populate path a successful handshake takes. -/
def insertAll (c : SessionCache) : List (Identity × Nat) → SessionCache
  | [] => c
  | p :: rest => insertAll (storeSession c p.1 p.2) rest

/-- Clear the first valid slot matching the identity, if any (the linear
scan finds the first match; spec §3's invariant keeps it unique). -/
def clearFirst (q : Identity) : List SSLSession → List SSLSession
  | [] => []
  | s :: rest =>
    if s.valid && idMatch q s.host s.addr then emptySession :: rest
    else s :: clearFirst q rest

/-- Modelled from the spec: `SSLClientImpl::remove_session_impl`, the target
of `SSLClient::removeSession` (header line 310), is not under `src/`.
Spec §4.1 `remove(host, ip)`: if a matching valid slot exists, clear it
(mark invalid, reset the blob); no-op if not found.  The cursor is not
touched. -/
def removeSession (c : SessionCache) (q : Identity) : SessionCache :=
  ⟨clearFirst q c.slots, c.cursor⟩

/-- Number of valid slots matching an identity (spec §3's invariant keeps
this at most 1 for every identity). -/
def matchCount (q : Identity) (l : List SSLSession) : Nat :=
  l.countP (fun s => s.valid && idMatch q s.host s.addr)

/-- The valid session record a successful handshake stores for an
(identity, blob) pair. -/
def mkSession (p : Identity × Nat) : SSLSession := ⟨p.1.host, p.1.addr, p.2, true⟩

/-! ## Compile-time capacity guards (header lines 50–52) and
`getSessionCount` (header line 317) -/

/-- The three `static_assert` guards on instantiating
`SSLClient<C, SessionCache>` (header lines 50–52): `C` derives from
`Client`, `SessionCache > 0 && SessionCache < 255`, and
`SessionCache <= 3`.  The instantiation compiles exactly when this is
`true`. -/
def staticAssertsPass (clientDerived : Bool) (sessionCache : Nat) : Bool :=
  clientDerived && (decide (sessionCache > 0) && decide (sessionCache < 255))
    && decide (sessionCache ≤ 3)

/-- `SSLClient::getSessionCount` (header line 317): returns the
`SessionCache` template parameter. -/
def getSessionCount (sessionCache : Nat) : Nat := sessionCache

/-! ## Capability-probed accessors (header lines 333–356)

The wrapped client type `C` is abstracted to which of the three optional
introspection members it declares, restricted — as everywhere in this
repository and the Arduino cores it targets — to members that are ordinary
member functions, so a member is either absent or a member function. -/

/-- A wrapped client type: which optional introspection member functions it
declares, and the values those members report when called. -/
structure ClientType where
  hasLocalPort : Bool
  hasRemoteIP : Bool
  hasRemotePort : Bool
  localPortVal : Nat
  remoteIPVal : Nat
  remotePortVal : Nat
deriving DecidableEq

/-- C++ semantics of `decltype(&C::member)` as used in the accessor bodies
(header lines 335, 343, 351): the expression is well-formed exactly when
the member exists; naming a missing member is a hard error (the expression
is not in a deduction context, so no substitution-failure escape applies). -/
def declMemberPointerWellFormed (present : Bool) : Bool := present

/-- C++ semantics of
`std::is_member_function_pointer<decltype(&C::member)>::value` when the
enclosing code is well-formed: with members restricted to member functions,
the trait is `true` exactly when the member is present. -/
def isMemberFunctionPointer (present : Bool) : Bool := present

/-- Whether `SSLClient<C>` compiles: the class's virtual member functions
are instantiated together with the class, and the bodies of `localPort`,
`remoteIP` and `remotePort` (header lines 333–356) each contain a
`decltype(&C::member)`, so the instantiation is well-formed only when all
three members are present. -/
def sslClientCompiles (c : ClientType) : Bool :=
  declMemberPointerWellFormed c.hasLocalPort
    && declMemberPointerWellFormed c.hasRemoteIP
    && declMemberPointerWellFormed c.hasRemotePort

/-- The "no address" sentinel `INADDR_NONE`: the Arduino core defines it as
the all-zero address `IPAddress(0,0,0,0)`, modelled here as `0`. -/
def INADDR_NONE : Nat := 0

/-- Outcome of one capability-probed accessor call: either the call
delegated to the wrapped client's member, or it returned the documented
sentinel after emitting a warning on the logging side channel. -/
inductive AccessorResult where
  | delegated : Nat → AccessorResult
  | sentinelWithWarning : Nat → AccessorResult
deriving DecidableEq

/-- `SSLClient::localPort` (header lines 334–340).  `none` records that the
instantiation is ill-formed (no compiled function exists); otherwise the
runtime branch follows the source: delegate when the trait holds, else warn
and return `0`. -/
def localPort (c : ClientType) : Option AccessorResult :=
  if declMemberPointerWellFormed c.hasLocalPort = false then none
  else if isMemberFunctionPointer c.hasLocalPort then
    some (.delegated c.localPortVal)
  else some (.sentinelWithWarning 0)

/-- `SSLClient::remoteIP` (header lines 342–348), same shape: delegate when
the trait holds, else warn and return `INADDR_NONE`. -/
def remoteIP (c : ClientType) : Option AccessorResult :=
  if declMemberPointerWellFormed c.hasRemoteIP = false then none
  else if isMemberFunctionPointer c.hasRemoteIP then
    some (.delegated c.remoteIPVal)
  else some (.sentinelWithWarning INADDR_NONE)

/-- `SSLClient::remotePort` (header lines 350–356), same shape: delegate
when the trait holds, else warn and return `0`. -/
def remotePort (c : ClientType) : Option AccessorResult :=
  if declMemberPointerWellFormed c.hasRemotePort = false then none
  else if isMemberFunctionPointer c.hasRemotePort then
    some (.delegated c.remotePortVal)
  else some (.sentinelWithWarning 0)

/-! ## Connection state machine (spec §4.4; header lines 124, 162, 209,
237, 247, 266, 280) -/

/-- The phases of the connection state machine (spec §4.4):
`Idle → Handshaking → Connected → Closing → Idle`, with an `Error`
absorbing state reachable from `Handshaking` or `Connected`. -/
inductive Phase where
  | Idle
  | Handshaking
  | Connected
  | Closing
  | Error
deriving DecidableEq

/-- Transient connection state (spec §3 "Connection state"): the current
phase and whether the underlying socket transport is open. -/
structure ConnState where
  phase : Phase
  socketConnected : Bool
deriving DecidableEq

/-- Modelled from the spec: `SSLClientImpl::connect_impl`, the target of
`SSLClient::connect` (header lines 124, 162), is not under `src/`.
Spec §4.4: precondition is `Idle` with the socket not already connected;
the transport is opened first, then the handshake loop runs until it
completes (→ `Connected`) or fails fatally (→ `Error`).  The two `Bool`
parameters stand for the environment's answers: whether the transport
open succeeds and whether the handshake loop completes.  Returns the new
state and the boolean-style success result. -/
def connect (st : ConnState) (transportOk : Bool) (handshakeOk : Bool) :
    ConnState × Bool :=
  if st.phase = Phase.Idle ∧ st.socketConnected = false then
    if transportOk then
      if handshakeOk then (⟨Phase.Connected, true⟩, true)
      else (⟨Phase.Error, true⟩, false)
    else (st, false)
  else (st, false)

/-- Modelled from the spec: `SSLClientImpl::stop_impl`, the target of
`SSLClient::stop` (header line 266), is not under `src/`.  Spec §4.4
`stop()`: if `Connected`, attempt a graceful engine-level close
(best-effort), then unconditionally close the transport and reset to
`Idle`; if not connected, only close the transport.  Failures of the
graceful close (`gracefulCloseOk = false`) are swallowed and logged, not
propagated; the return type carries no error channel, only the state and
whether a diagnostic was logged. -/
def stop (st : ConnState) (gracefulCloseOk : Bool) : ConnState × Bool :=
  if st.phase = Phase.Connected then
    (⟨Phase.Idle, false⟩, !gracefulCloseOk)
  else
    (⟨Phase.Idle, false⟩, false)

/-- Modelled from the spec: `SSLClientImpl::connected_impl`, the target of
`SSLClient::connected` (header line 280), is not under `src/`.  Spec §4.4
`connected()`: true only if both the engine phase and the socket's
liveness indicate an active, non-erred session. -/
def connected_impl (st : ConnState) : Bool :=
  decide (st.phase = Phase.Connected) && st.socketConnected

/-- Modelled from the spec: `SSLClientImpl::available_impl`, the target of
`SSLClient::available` (header line 209), is not under `src/`.  Spec §4.4
and header lines 196–207: if `connected()` is false the call returns 0;
otherwise it reports the decrypted bytes pending. -/
def available_impl (st : ConnState) (pending : Nat) : Nat :=
  if connected_impl st then pending else 0

/-- Modelled from the spec: `SSLClientImpl::read_impl`, the target of
`SSLClient::read` (header line 237), is not under `src/`.  Spec §4.4 and
header line 235: `-1` when the preconditions (`Connected`, bytes
available) are not satisfied, else the number of bytes copied (≤ size). -/
def read_impl (st : ConnState) (pending : Nat) (size : Nat) : Int :=
  if available_impl st pending > 0 then Int.ofNat (min size pending) else -1

/-- Modelled from the spec: `SSLClientImpl::peek_impl`, the target of
`SSLClient::peek` (header line 247), is not under `src/`.  Header lines
244–245: the first received byte, or `-1` if the preconditions are not
satisfied. -/
def peek_impl (st : ConnState) (pending : Nat) (firstByte : Nat) : Int :=
  if available_impl st pending > 0 then Int.ofNat firstByte else -1

/-! ## Write pump (spec §3 "WritePump buffer", §4.3; header lines 165–189,
249–256) -/

/-- The deferred-write pump: the engine's single I/O page size and the
bytes currently staged in the buffer (spec §3: the buffer never holds more
than one page). -/
structure WritePump where
  pageSize : Nat
  buffered : Nat
deriving DecidableEq

/-- Modelled from the spec: `SSLClientImpl::write_impl`, the target of
`SSLClient::write` (header line 189), is not under `src/`.  Spec §4.3
`write(buf, size)`: if the engine cannot currently accept writes
(`engineReady = false`, e.g. mid-handshake or in an error state) nothing
is accepted and 0 is returned — a full-buffer failure, not partial.
Otherwise the bytes are appended to the buffer; if the buffer would exceed
one page, as many full pages as needed are flushed to the network
immediately and the remainder stays buffered.  Returns (pump afterwards,
bytes logically accepted, number of immediate page-sized network
flushes). -/
def wpWrite (wp : WritePump) (engineReady : Bool) (size : Nat) :
    WritePump × Nat × Nat :=
  if engineReady = false then (wp, 0, 0)
  else if wp.buffered + size ≤ wp.pageSize then
    (⟨wp.pageSize, wp.buffered + size⟩, size, 0)
  else
    (⟨wp.pageSize, (wp.buffered + size) % wp.pageSize⟩, size,
      (wp.buffered + size) / wp.pageSize)

/-- Modelled from the spec: `SSLClientImpl::flush_impl`, the target of
`SSLClient::flush` (header line 256), is not under `src/`.  Spec §4.3
`flush()`: forces any buffered bytes out to the engine/socket immediately.
Returns the drained pump and the number of bytes transmitted. -/
def wpFlush (wp : WritePump) : WritePump × Nat :=
  (⟨wp.pageSize, 0⟩, wp.buffered)

/-! ## Bool comparison operators (header lines 324–328) -/

/-- C++ value-initialization: the expression `bool()` appearing inside a
member function body is a value-initialized temporary of type `bool`,
i.e. `false`; it is not a call to `operator bool` on `*this`. -/
def boolValueInit : Bool := false

/-- `SSLClient::operator bool` (header line 324): `connected() > 0`, where
`connected()` returns a `uint8_t` (1 if connected, 0 if not). -/
def operatorBool (connectedVal : Nat) : Bool := decide (connectedVal > 0)

/-- `SSLClient::operator==(const bool value)` (header line 326):
`return bool() == value;` — the left operand is the value-initialized
temporary, so the client's connection state `connectedVal` is ignored. -/
def operatorEqBool (connectedVal : Nat) (value : Bool) : Bool :=
  boolValueInit == value

/-- `SSLClient::operator!=(const bool value)` (header line 328):
`return bool() != value;`. -/
def operatorNeqBool (connectedVal : Nat) (value : Bool) : Bool :=
  boolValueInit != value

/-! ## Theorems -/

/-- `stop` leaves the machine in `Idle` with the transport closed, for every
starting state and regardless of whether the graceful close succeeded. -/
theorem stop_unconditional (st : ConnState) (g : Bool) :
    (stop st g).1 = ⟨Phase.Idle, false⟩ := by
  unfold stop; split <;> rfl

/-- Claim C2: for every sequence consisting of a successful `connect`
followed by `stop`, the state machine ends in `Idle` and the underlying
socket reports not-connected; `stop` carries no error return and closes
the transport unconditionally, even when the graceful engine-level close
fails (`g = false`). -/
theorem stop_after_connect_ends_idle (st : ConnState) (t h g : Bool)
    (hsucc : (connect st t h).2 = true) :
    (stop (connect st t h).1 g).1.phase = Phase.Idle ∧
    (stop (connect st t h).1 g).1.socketConnected = false := by
  rw [stop_unconditional]
  exact ⟨rfl, rfl⟩

/-- Witness for C2: a concrete successful connect from `Idle` followed by a
`stop` whose graceful close fails still ends `Idle` and closed. -/
theorem stop_after_connect_ends_idle_witness :
    (stop (connect ⟨Phase.Idle, false⟩ true true).1 false).1.phase = Phase.Idle ∧
    (stop (connect ⟨Phase.Idle, false⟩ true true).1 false).1.socketConnected = false :=
  stop_after_connect_ends_idle ⟨Phase.Idle, false⟩ true true false (by decide)

/-- Claim C3: `write` accepts either exactly `size` bytes or 0 bytes — never
a partial count strictly between — and accepts 0 exactly when the engine
cannot currently accept writes. -/
theorem write_all_or_nothing (wp : WritePump) (engineReady : Bool) (size : Nat) :
    ((wpWrite wp engineReady size).2.1 = size ∨
      (wpWrite wp engineReady size).2.1 = 0) ∧
    (engineReady = false → (wpWrite wp engineReady size).2.1 = 0) := by
  cases engineReady
  · exact ⟨Or.inr rfl, fun _ => rfl⟩
  · refine ⟨Or.inl ?_, fun hc => by cases hc⟩
    unfold wpWrite
    rw [if_neg (fun hc => Bool.noConfusion hc)]
    split <;> rfl

/-- Witness for C3: concrete evaluations of `wpWrite` on both sides. -/
theorem write_all_or_nothing_witness :
    (((wpWrite ⟨4, 0⟩ false 7).2.1 = 7 ∨ (wpWrite ⟨4, 0⟩ false 7).2.1 = 0) ∧
      (false = false → (wpWrite ⟨4, 0⟩ false 7).2.1 = 0)) ∧
    ((wpWrite ⟨4, 0⟩ true 7).2.1 = 7 ∨ (wpWrite ⟨4, 0⟩ true 7).2.1 = 0) :=
  ⟨write_all_or_nothing ⟨4, 0⟩ false 7, (write_all_or_nothing ⟨4, 0⟩ true 7).1⟩

/-- Claim C4: starting from an empty staging buffer, a write smaller than
one engine I/O page triggers no immediate network flush (the bytes only
reach the network on a later `flush`, which transmits exactly them), while
a write larger than one page triggers exactly `size / pageSize` immediate
page-sized flushes and buffers the `size % pageSize` remainder. -/
theorem write_paging_behavior (wp : WritePump) (size : Nat)
    (hp : 0 < wp.pageSize) (hb : wp.buffered = 0) :
    (size < wp.pageSize →
      (wpWrite wp true size).2.2 = 0 ∧
      (wpFlush (wpWrite wp true size).1).2 = size) ∧
    (wp.pageSize < size →
      (wpWrite wp true size).2.2 = size / wp.pageSize ∧
      (wpWrite wp true size).1.buffered = size % wp.pageSize ∧
      (wpWrite wp true size).2.1 = size) := by
  constructor
  · intro hlt
    have hle : size ≤ wp.pageSize := by omega
    simp [wpWrite, wpFlush, hle, hb]
  · intro hgt
    have hnle : ¬ size ≤ wp.pageSize := by omega
    simp [wpWrite, hnle, hb]

/-- Witness for C4: page size 4; a 3-byte write flushes nothing and later
`flush` emits the 3 bytes; a 9-byte write flushes `9 / 4 = 2` pages at once
and buffers `9 % 4 = 1` byte. -/
theorem write_paging_behavior_witness :
    ((3 < 4 →
        (wpWrite ⟨4, 0⟩ true 3).2.2 = 0 ∧
        (wpFlush (wpWrite ⟨4, 0⟩ true 3).1).2 = 3) ∧
      (4 < 3 →
        (wpWrite ⟨4, 0⟩ true 3).2.2 = 3 / 4 ∧
        (wpWrite ⟨4, 0⟩ true 3).1.buffered = 3 % 4 ∧
        (wpWrite ⟨4, 0⟩ true 3).2.1 = 3)) ∧
    ((9 < 4 →
        (wpWrite ⟨4, 0⟩ true 9).2.2 = 0 ∧
        (wpFlush (wpWrite ⟨4, 0⟩ true 9).1).2 = 9) ∧
      (4 < 9 →
        (wpWrite ⟨4, 0⟩ true 9).2.2 = 9 / 4 ∧
        (wpWrite ⟨4, 0⟩ true 9).1.buffered = 9 % 4 ∧
        (wpWrite ⟨4, 0⟩ true 9).2.1 = 9)) :=
  ⟨write_paging_behavior ⟨4, 0⟩ 3 (by decide) rfl,
    write_paging_behavior ⟨4, 0⟩ 9 (by decide) rfl⟩

/-- Claim C5: outside the `Connected` phase, `available` returns 0 and
`read`/`peek` return `-1` (the documented "not ready" sentinels); and
`available` returns 0 whenever `connected()` is false. -/
theorem not_connected_sentinels (st : ConnState) (pending size firstByte : Nat) :
    (st.phase ≠ Phase.Connected →
      available_impl st pending = 0 ∧
      read_impl st pending size = -1 ∧
      peek_impl st pending firstByte = -1) ∧
    (connected_impl st = false → available_impl st pending = 0) := by
  constructor
  · intro h
    have hc : connected_impl st = false := by
      simp [connected_impl, h]
    simp [available_impl, read_impl, peek_impl, hc]
  · intro hc
    simp [available_impl, hc]

/-- Witness for C5: a disconnected `Idle` state with 5 decrypted bytes
notionally pending still reports the sentinels. -/
theorem not_connected_sentinels_witness :
    ((Phase.Idle ≠ Phase.Connected →
        available_impl ⟨Phase.Idle, false⟩ 5 = 0 ∧
        read_impl ⟨Phase.Idle, false⟩ 5 3 = -1 ∧
        peek_impl ⟨Phase.Idle, false⟩ 5 9 = -1) ∧
      (connected_impl ⟨Phase.Idle, false⟩ = false →
        available_impl ⟨Phase.Idle, false⟩ 5 = 0)) :=
  not_connected_sentinels ⟨Phase.Idle, false⟩ 5 3 9

/-- Claim C6 (divergence): for a wrapped client type lacking a `remoteIP`
member, instantiating `SSLClient` is ill-formed — the guard fails and no
compiled `remoteIP()` exists to return the `INADDR_NONE` sentinel, contrary
to the header's own doc comment ("Else return INADDR_NONE"). -/
theorem remoteIP_missing_member_never_sentinel :
    remoteIP ⟨true, false, true, 0, 7, 0⟩ = none ∧
    sslClientCompiles ⟨true, false, true, 0, 7, 0⟩ = false :=
  ⟨rfl, rfl⟩

/-- Claim C8: instantiation passes the compile-time guards exactly for
capacities between 1 and 3 inclusive (capacity 0 and capacities above 3
are rejected), and `getSessionCount()` returns the fixed capacity. -/
theorem capacity_guard_and_count (n : Nat) :
    (staticAssertsPass true n = true ↔ 1 ≤ n ∧ n ≤ 3) ∧
    getSessionCount n = n := by
  refine ⟨⟨fun h => ?_, fun h => ?_⟩, rfl⟩
  · simp only [staticAssertsPass, Bool.and_eq_true, decide_eq_true_eq] at h
    omega
  · simp only [staticAssertsPass, Bool.and_eq_true, decide_eq_true_eq, true_and]
    omega

/-- Witness for C8: capacity 2 passes the guards; capacities 0 and 4 fail
them. -/
theorem capacity_guard_and_count_witness :
    ((staticAssertsPass true 2 = true ↔ 1 ≤ 2 ∧ 2 ≤ 3) ∧
      getSessionCount 2 = 2) ∧
    staticAssertsPass true 2 = true ∧
    staticAssertsPass true 0 = false ∧
    staticAssertsPass true 4 = false :=
  ⟨capacity_guard_and_count 2, (capacity_guard_and_count 2).1.mpr (by decide),
    by decide, by decide⟩

/-- Claim C9: whenever `SSLClient<C>` compiles, the
`is_member_function_pointer` capability tests are all `true`, so the
sentinel/warning branches of `localPort`, `remoteIP` and `remotePort` are
unreachable and every call delegates to the wrapped client; and for any
type lacking one of the members, the corresponding accessor's
`decltype(&C::member)` makes the instantiation ill-formed instead of
selecting the sentinel branch. -/
theorem capability_fallback_unreachable (c c' : ClientType)
    (h : sslClientCompiles c = true) :
    isMemberFunctionPointer c.hasLocalPort = true ∧
    isMemberFunctionPointer c.hasRemoteIP = true ∧
    isMemberFunctionPointer c.hasRemotePort = true ∧
    localPort c = some (AccessorResult.delegated c.localPortVal) ∧
    remoteIP c = some (AccessorResult.delegated c.remoteIPVal) ∧
    remotePort c = some (AccessorResult.delegated c.remotePortVal) ∧
    (c'.hasLocalPort = false → localPort c' = none) ∧
    (c'.hasRemoteIP = false → remoteIP c' = none) ∧
    (c'.hasRemotePort = false → remotePort c' = none) := by
  have hh : c.hasLocalPort = true ∧ c.hasRemoteIP = true ∧ c.hasRemotePort = true := by
    simpa [sslClientCompiles, declMemberPointerWellFormed, Bool.and_eq_true,
      and_assoc] using h
  obtain ⟨h1, h2, h3⟩ := hh
  refine ⟨h1, h2, h3, ?_, ?_, ?_, ?_, ?_, ?_⟩
  · simp [localPort, declMemberPointerWellFormed, isMemberFunctionPointer, h1]
  · simp [remoteIP, declMemberPointerWellFormed, isMemberFunctionPointer, h2]
  · simp [remotePort, declMemberPointerWellFormed, isMemberFunctionPointer, h3]
  · intro hm; simp [localPort, declMemberPointerWellFormed, hm]
  · intro hm; simp [remoteIP, declMemberPointerWellFormed, hm]
  · intro hm; simp [remotePort, declMemberPointerWellFormed, hm]

/-- Witness for C9: a fully capable client type delegates everywhere, and a
type lacking `remoteIP` is ill-formed. -/
theorem capability_fallback_unreachable_witness :
    isMemberFunctionPointer (true : Bool) = true ∧
    isMemberFunctionPointer (true : Bool) = true ∧
    isMemberFunctionPointer (true : Bool) = true ∧
    localPort ⟨true, true, true, 1, 2, 3⟩ = some (AccessorResult.delegated 1) ∧
    remoteIP ⟨true, true, true, 1, 2, 3⟩ = some (AccessorResult.delegated 2) ∧
    remotePort ⟨true, true, true, 1, 2, 3⟩ = some (AccessorResult.delegated 3) ∧
    ((true : Bool) = false → localPort ⟨true, true, true, 4, 5, 6⟩ = none) ∧
    ((false : Bool) = false → remoteIP ⟨true, false, true, 4, 5, 6⟩ = none) ∧
    ((true : Bool) = false → remotePort ⟨true, false, true, 4, 5, 6⟩ = none) :=
  capability_fallback_unreachable ⟨true, true, true, 1, 2, 3⟩
    ⟨true, false, true, 4, 5, 6⟩ (by decide)

/-- Claim C10: `operator==(bool)` and `operator!=(bool)` compare against a
value-initialized `bool()` (always `false`), not against the connection
status: they are independent of the client's state, and differ from what a
comparison against `operator bool` would give on a connected client. -/
theorem boolEq_ignores_connection (cv cv' : Nat) (v : Bool) :
    operatorEqBool cv v = (false == v) ∧
    operatorNeqBool cv v = (false != v) ∧
    operatorEqBool cv v = operatorEqBool cv' v ∧
    operatorNeqBool cv v = operatorNeqBool cv' v ∧
    operatorEqBool 1 true = false ∧
    (operatorBool 1 == true) = true :=
  ⟨rfl, rfl, rfl, rfl, rfl, rfl⟩

/-- The linear scan finds nothing when every slot is invalid or fails the
identity test. -/
theorem findMatch_eq_none (q : Identity) (l : List SSLSession)
    (h : ∀ s ∈ l, s.valid = false ∨ idMatch q s.host s.addr = false) :
    findMatch q l = none := by
  induction l with
  | nil => rfl
  | cons s rest ih =>
    have hs : (s.valid && idMatch q s.host s.addr) = false := by
      rcases h s (List.mem_cons_self s rest) with h1 | h1 <;> simp [h1]
    have hr := ih (fun t ht => h t (List.mem_cons_of_mem s ht))
    simp [findMatch, hs, hr]

/-- On a cache miss, `getSession` clears the slot at the rotating cursor,
advances the cursor modulo the capacity, and returns that slot's index. -/
theorem getSession_miss (c : SessionCache) (q : Identity)
    (h : findMatch q c.slots = none) :
    getSession c q =
      (⟨c.slots.set c.cursor emptySession, (c.cursor + 1) % c.slots.length⟩,
        c.cursor) := by
  unfold getSession
  rw [h]

/-- Reading back an index just overwritten with the empty session yields the
empty session (out-of-range indices also read back as the default). -/
theorem getD_set_emptySession (l : List SSLSession) (i : Nat) :
    (l.set i emptySession).getD i emptySession = emptySession := by
  by_cases hlt : i < l.length
  · rw [List.getD_eq_getElem?_getD, List.getElem?_set_self (by simpa using hlt)]
    rfl
  · rw [List.set_eq_of_length_le (Nat.le_of_not_lt hlt),
      List.getD_eq_getElem?_getD, List.getElem?_eq_none (Nat.le_of_not_lt hlt)]
    rfl

/-- On a cache miss the slot `getSession` hands back is freshly emptied. -/
theorem getSessionSlot_invalid_of_miss (c : SessionCache) (q : Identity)
    (h : findMatch q c.slots = none) :
    getSessionSlot c q = emptySession := by
  unfold getSessionSlot
  rw [getSession_miss c q h]
  exact getD_set_emptySession c.slots c.cursor

/-- No valid matching slot at all means the scan misses. -/
theorem findMatch_eq_none_of_matchCount_zero (q : Identity) (l : List SSLSession)
    (h : matchCount q l = 0) : findMatch q l = none := by
  induction l with
  | nil => rfl
  | cons s rest ih =>
    by_cases hc : (s.valid && idMatch q s.host s.addr) = true
    · exfalso
      rw [matchCount, List.countP_cons_of_pos _ _ (by simpa using hc)] at h
      omega
    · have hc' : (s.valid && idMatch q s.host s.addr) = false := by simpa using hc
      rw [matchCount, List.countP_cons_of_neg _ _ (by simpa using hc)] at h
      simp [findMatch, hc', ih h]

/-- After clearing the (unique) matching slot, the scan misses. -/
theorem findMatch_clearFirst_eq_none (q : Identity) (l : List SSLSession)
    (h : matchCount q l ≤ 1) : findMatch q (clearFirst q l) = none := by
  induction l with
  | nil => rfl
  | cons s rest ih =>
    by_cases hc : (s.valid && idMatch q s.host s.addr) = true
    · have hrest : matchCount q rest = 0 := by
        rw [matchCount, List.countP_cons_of_pos _ _ (by simpa using hc)] at h
        rw [matchCount]
        omega
      simp [clearFirst, hc, findMatch, emptySession,
        findMatch_eq_none_of_matchCount_zero q rest hrest]
    · have hc' : (s.valid && idMatch q s.host s.addr) = false := by simpa using hc
      have h' : matchCount q rest ≤ 1 := by
        rw [matchCount, List.countP_cons_of_neg _ _ (by simpa using hc)] at h
        exact h
      simp [clearFirst, hc', findMatch, ih h']

/-- Clearing is a no-op when the scan already misses. -/
theorem clearFirst_eq_of_findMatch_none (q : Identity) (l : List SSLSession)
    (h : findMatch q l = none) : clearFirst q l = l := by
  induction l with
  | nil => rfl
  | cons s rest ih =>
    by_cases hc : (s.valid && idMatch q s.host s.addr) = true
    · simp [findMatch, hc] at h
    · have hc' : (s.valid && idMatch q s.host s.addr) = false := by simpa using hc
      have h' : findMatch q rest = none := by
        simpa [findMatch, hc', Option.map_eq_none'] using h
      simp [clearFirst, hc', ih h']

/-- Invariant of the insertion sequence: populating a partially filled cache
(`prev` identities in the first slots, the rest empty, cursor just past
them) with a list of identities that match nothing already present fills
the following slots in insertion order and advances the cursor modulo the
capacity. -/
theorem insertAll_fresh (N : Nat) (rest : List (Identity × Nat)) :
    ∀ prev : List (Identity × Nat),
      prev.length + rest.length ≤ N →
      (∀ r ∈ rest, ∀ p ∈ prev, idMatch r.1 p.1.host p.1.addr = false) →
      rest.Pairwise (fun a b => idMatch b.1 a.1.host a.1.addr = false) →
      insertAll ⟨prev.map mkSession
          ++ List.replicate (N - prev.length) emptySession, prev.length % N⟩ rest
        = ⟨(prev ++ rest).map mkSession
            ++ List.replicate (N - (prev.length + rest.length)) emptySession,
          (prev.length + rest.length) % N⟩ := by
  induction rest with
  | nil =>
    intro prev hlen hcross hpw
    simp [insertAll]
  | cons r rs ih =>
    intro prev hlen hcross hpw
    have hk : prev.length < N := by
      simp only [List.length_cons] at hlen
      omega
    have hkN : prev.length % N = prev.length := Nat.mod_eq_of_lt hk
    have hrep : N - prev.length = (N - (prev.length + 1)) + 1 := by omega
    have hfm : findMatch r.1 (prev.map mkSession
        ++ List.replicate (N - prev.length) emptySession) = none := by
      apply findMatch_eq_none
      intro s hs
      rcases List.mem_append.mp hs with hs | hs
      · obtain ⟨p, hp, rfl⟩ := List.mem_map.mp hs
        exact Or.inr (hcross r (List.mem_cons_self r rs) p hp)
      · rw [List.eq_of_mem_replicate hs]
        exact Or.inl rfl
    have hstore : storeSession ⟨prev.map mkSession
          ++ List.replicate (N - prev.length) emptySession, prev.length % N⟩ r.1 r.2
        = ⟨(prev ++ [r]).map mkSession
            ++ List.replicate (N - (prev.length + 1)) emptySession,
          (prev.length + 1) % N⟩ := by
      unfold storeSession
      rw [getSession_miss _ _ hfm]
      simp only []
      rw [List.set_set]
      congr 1
      · rw [hrep, List.replicate_succ, hkN,
          List.set_append_right _ _ (by simp)]
        simp [mkSession]
      · rw [hkN]
        have hlenslots : (prev.map mkSession
            ++ List.replicate (N - prev.length) emptySession).length = N := by
          simp
          omega
        rw [hlenslots]
    have hlen' : (prev ++ [r]).length + rs.length ≤ N := by
      simp only [List.length_append, List.length_cons, List.length_nil] at hlen ⊢
      omega
    have hcross' : ∀ a ∈ rs, ∀ p ∈ prev ++ [r],
        idMatch a.1 p.1.host p.1.addr = false := by
      intro a ha p hp
      rcases List.mem_append.mp hp with hp | hp
      · exact hcross a (List.mem_cons_of_mem r ha) p hp
      · have hpr : p = r := by simpa using hp
        subst hpr
        exact (List.pairwise_cons.mp hpw).1 a ha
    have hpw' : rs.Pairwise (fun a b => idMatch b.1 a.1.host a.1.addr = false) :=
      (List.pairwise_cons.mp hpw).2
    have ihinst := ih (prev ++ [r]) hlen' hcross' hpw'
    simp only [List.length_append, List.length_cons, List.length_nil,
      Nat.zero_add] at ihinst
    simp only [insertAll]
    rw [hstore, ihinst]
    have harith : prev.length + 1 + rs.length = prev.length + (rs.length + 1) := by
      omega
    rw [harith, List.append_assoc, List.singleton_append]
    simp [List.length_cons]

/-- Inserting `N` mutually fresh identities into an empty capacity-`N`
cache fills the slots in insertion order and leaves the rotating cursor
back at slot 0. -/
theorem insertAll_from_empty (N : Nat) (ids : List (Identity × Nat))
    (hN : 0 < N) (hlen : ids.length = N)
    (hpw : ids.Pairwise (fun a b => idMatch b.1 a.1.host a.1.addr = false)) :
    insertAll (emptyCache N) ids = ⟨ids.map mkSession, 0⟩ := by
  have h := insertAll_fresh N ids [] (by simp [hlen]) (by simp) hpw
  simpa [emptyCache, hlen] using h

/-- Claim C1: a capacity-`N` cache holding `N` distinct valid identities,
populated in insertion order: a `getSession` on a fresh `(N+1)`-th identity
returns exactly slot 0 — the first-inserted slot, selected by the rotating
modulo-capacity cursor, never an arbitrary slot — clearing it; slot 0 indeed
held the first-inserted identity; and a subsequent `getSession` on that
evicted identity hands back a freshly-emptied (invalid) slot. -/
theorem getSession_evicts_first_inserted (N : Nat) (ids : List (Identity × Nat))
    (q : Identity) (hN : 0 < N) (hlen : ids.length = N)
    (hpw : ids.Pairwise (fun a b =>
      idMatch a.1 b.1.host b.1.addr = false ∧ idMatch b.1 a.1.host a.1.addr = false))
    (hq : ∀ p ∈ ids, idMatch q p.1.host p.1.addr = false) :
    (getSession (insertAll (emptyCache N) ids) q).2 = 0 ∧
    (insertAll (emptyCache N) ids).slots.getD 0 emptySession
      = mkSession (ids.getD 0 (⟨"", 0⟩, 0)) ∧
    getSessionSlot (getSession (insertAll (emptyCache N) ids) q).1
      (ids.getD 0 (⟨"", 0⟩, 0)).1 = emptySession := by
  have hpw' : ids.Pairwise (fun a b => idMatch b.1 a.1.host a.1.addr = false) :=
    hpw.imp (fun h => h.2)
  have hcache := insertAll_from_empty N ids hN hlen hpw'
  obtain ⟨p0, rest, rfl⟩ : ∃ p0 rest, ids = p0 :: rest := by
    cases ids with
    | nil => rw [List.length_nil] at hlen; omega
    | cons a l => exact ⟨a, l, rfl⟩
  rw [hcache]
  have hfm : findMatch q ((p0 :: rest).map mkSession) = none := by
    apply findMatch_eq_none
    intro s hs
    obtain ⟨p, hp, rfl⟩ := List.mem_map.mp hs
    exact Or.inr (hq p hp)
  have hget := getSession_miss ⟨(p0 :: rest).map mkSession, 0⟩ q hfm
  refine ⟨?_, ?_, ?_⟩
  · rw [hget]
  · rfl
  · rw [hget]
    apply getSessionSlot_invalid_of_miss
    apply findMatch_eq_none
    intro s hs
    rcases List.mem_cons.mp hs with hs | hs
    · subst hs
      exact Or.inl rfl
    · obtain ⟨p, hp, rfl⟩ := List.mem_map.mp hs
      exact Or.inr ((List.pairwise_cons.mp hpw).1 p hp).1

/-- Witness for C1: capacity 2, sessions for `a.com` and `b.com` inserted in
that order; looking up `c.com` evicts exactly the `a.com` slot (slot 0) and
a lookup of `a.com` afterwards gets a freshly-emptied slot. -/
theorem getSession_evicts_first_inserted_witness :
    (getSession (insertAll (emptyCache 2)
        [(⟨"a.com", 1⟩, 10), (⟨"b.com", 2⟩, 20)]) ⟨"c.com", 3⟩).2 = 0 ∧
    (insertAll (emptyCache 2)
        [(⟨"a.com", 1⟩, 10), (⟨"b.com", 2⟩, 20)]).slots.getD 0 emptySession
      = mkSession ([(⟨"a.com", 1⟩, 10), (⟨"b.com", 2⟩, 20)].getD 0 (⟨"", 0⟩, 0)) ∧
    getSessionSlot (getSession (insertAll (emptyCache 2)
        [(⟨"a.com", 1⟩, 10), (⟨"b.com", 2⟩, 20)]) ⟨"c.com", 3⟩).1
      ([(⟨"a.com", 1⟩, 10), (⟨"b.com", 2⟩, 20)].getD 0 (⟨"", 0⟩, 0)).1
      = emptySession :=
  getSession_evicts_first_inserted 2 [(⟨"a.com", 1⟩, 10), (⟨"b.com", 2⟩, 20)]
    ⟨"c.com", 3⟩ (by decide) (by decide) (by decide) (by decide)

/-- Claim C7: under the cache invariant (at most one valid slot per
identity), `removeSession` followed by a `getSession` on the same identity
returns an invalid empty slot — not the previously cached blob — and
`removeSession` on an identity with no matching valid slot is a no-op. -/
theorem removeSession_clears_lookup (c : SessionCache) (q : Identity)
    (h : matchCount q c.slots ≤ 1) :
    getSessionSlot (removeSession c q) q = emptySession ∧
    (findMatch q c.slots = none → removeSession c q = c) := by
  constructor
  · apply getSessionSlot_invalid_of_miss
    exact findMatch_clearFirst_eq_none q c.slots h
  · intro hn
    unfold removeSession
    rw [clearFirst_eq_of_findMatch_none q c.slots hn]

/-- Witness for C7: a cache holding a valid `a.com` session with blob 42;
after `removeSession` the lookup returns the empty slot. -/
theorem removeSession_clears_lookup_witness :
    getSessionSlot (removeSession ⟨[⟨"a.com", 1, 42, true⟩, emptySession], 0⟩
        ⟨"a.com", 1⟩) ⟨"a.com", 1⟩ = emptySession ∧
    (findMatch ⟨"a.com", 1⟩ [⟨"a.com", 1, 42, true⟩, emptySession] = none →
      removeSession ⟨[⟨"a.com", 1, 42, true⟩, emptySession], 0⟩ ⟨"a.com", 1⟩
        = ⟨[⟨"a.com", 1, 42, true⟩, emptySession], 0⟩) :=
  removeSession_clears_lookup ⟨[⟨"a.com", 1, 42, true⟩, emptySession], 0⟩
    ⟨"a.com", 1⟩ (by decide)

end SSLClientModel
